import Mathlib

/-!
# Shallow embedding of the NBA games dashboard client (src/app/page.tsx)

The component `NBAGames` keeps React state (games list, loading flag, error
message, selected game, modal flags) and reacts to discrete events: the
resolution of the periodic game-list fetch (success or failure), a click on a
game card (which dispatches a box-score fetch), the resolution of that fetch
(success or failure), carousel navigation, and modal toggling.  We embed the
state as a record, each event handler as a pure state transformer, and the
JSX early returns as a pure `render` function.  JS strings are modelled as
Lean `String` (with `String.data` for character-level operations), JS
`undefined`/`null` as `Option`, and a JS runtime exception as an `Option`
result (`none` = the expression throws).
-/

/-- A box-score player row, mirroring the `Player` interface of the source. -/
structure Player where
  name : String
  position : String
  minutes : String
  points : Int
  rebounds : Int
  assists : Int
  steals : Int
  blocks : Int
  fg : String
  threes : String
  ft : String
deriving DecidableEq, Repr

/-- The TS type of `Game.id` is `string | number`. -/
abbrev GameId := String ⊕ Int

/-- A team, mirroring the `Team` interface: `players` is optional and absent
until a box score is merged in. -/
structure Team where
  name : String
  logo : String
  color : String
  secondaryColor : String
  score : Int
  players : Option (List Player)
deriving DecidableEq, Repr

/-- A game, mirroring the `Game` interface of the source. -/
structure Game where
  id : GameId
  homeTeam : Team
  awayTeam : Team
  time : String
  status : String
deriving DecidableEq, Repr

/-- The shape of one team in the `/api/nba/boxscore` response body. -/
structure TeamPlayers where
  players : List Player
deriving DecidableEq, Repr

/-- The `/api/nba/boxscore` response body:
`{ homeTeam: { players }, awayTeam: { players } }`. -/
structure BoxScoreData where
  homeTeam : TeamPlayers
  awayTeam : TeamPlayers
deriving DecidableEq, Repr

/-! ## The minutes formatter

```js
const formatMinutes = (minutes: string) => {
  if (!minutes) return '0:00'
  const [mins, secs] = minutes.split(":")
  return `${parseInt(mins)}:${secs.slice(0, 2)}`
}
```

`minutes.split(":")` splits on every `':'`; destructuring takes the first two
chunks.  When the string holds no `':'`, `secs` is `undefined` and
`secs.slice` throws a `TypeError`; we model the throwing call by returning
`none`.  `parseInt` skips leading whitespace, reads an optional sign and then
a maximal run of decimal digits; with no digit it yields `NaN`, which the
template literal renders as the string `"NaN"` (no exception). -/

/-- Model of JS `String.prototype.split` with a one-character separator,
acting on the character list of the string. -/
def splitOnChar (c : Char) : List Char → List (List Char)
  | [] => [[]]
  | x :: xs =>
    match splitOnChar c xs with
    | [] => [[]]
    | y :: ys => if x = c then [] :: y :: ys else (x :: y) :: ys

/-- Model of JS `parseInt(s)` (radix 10): skip leading whitespace, read an
optional sign, then a maximal run of decimal digits; `none` models `NaN`. -/
def jsParseInt (l : List Char) : Option Int :=
  let t := l.dropWhile (fun c => c.isWhitespace)
  let (neg, u) : Bool × List Char :=
    match t with
    | '-' :: r => (true, r)
    | '+' :: r => (false, r)
    | _ => (false, t)
  let digits := u.takeWhile (fun c => c.isDigit)
  if digits = [] then none
  else
    let v : Int := Int.ofNat (digits.foldl (fun a c => a * 10 + (c.toNat - 48)) 0)
    some (if neg then -v else v)

/-- Rendering of a JS number inside a template literal: `NaN` prints as
`"NaN"`. -/
def jsRenderParseInt (l : List Char) : String :=
  match jsParseInt l with
  | some n => toString n
  | none => "NaN"

/-- The `formatMinutes` helper.  Input `none` models the argument being
`undefined`; output `none` models the call throwing (see module comment). -/
def formatMinutes : Option String → Option String
  | none => some "0:00"
  | some m =>
    if m = "" then some "0:00"
    else
      match splitOnChar ':' m.data with
      | mins :: secs :: _ =>
        some (jsRenderParseInt mins ++ ":" ++ String.mk (secs.take 2))
      | _ => none

/-! ## Component state and event handlers -/

/-- The React state of `NBAGames`.  `pendingBoxScores` is bookkeeping for
dispatched-but-unresolved box-score fetches (the ids used in the request
URLs); it lets traces record which responses correspond to which dispatches
and has no behavioural effect in the handlers, faithfully to the source,
which never inspects in-flight requests. -/
structure AppState where
  activeIndex : Nat
  sidebarOpen : Bool
  games : List Game
  loading : Bool
  error : Option String
  showBoxScore : Bool
  selectedGame : Option Game
  boxScoreLoading : Bool
  pendingBoxScores : List GameId
deriving DecidableEq, Repr

/-- The initial state set by the `useState` calls. -/
def initState : AppState :=
  { activeIndex := 0
    sidebarOpen := true
    games := []
    loading := true
    error := none
    showBoxScore := false
    selectedGame := none
    boxScoreLoading := false
    pendingBoxScores := [] }

/-- Discrete events driving the component: resolutions of the two fetches,
clicks, carousel navigation, and modal toggling.  `clickGame i` is a click on
the card of `games[i]` (only rendered cards can be clicked);
`boxScoreOk gid d` / `boxScoreErr gid` are the resolution of the box-score
fetch that was dispatched with `gameId = gid`. -/
inductive Event where
  | listFetchOk (gs : List Game)
  | listFetchErr (msg : String)
  | clickGame (i : Nat)
  | boxScoreOk (gid : GameId) (d : BoxScoreData)
  | boxScoreErr (gid : GameId)
  | prevClick
  | nextClick
  | setIndex (i : Nat)
  | setShowBoxScore (b : Bool)
  | toggleSidebar
deriving DecidableEq, Repr

/-- `handlePrevious`: `prev === 0 ? games.length - 1 : prev - 1`. -/
def handlePrevious (games : List Game) (prev : Nat) : Nat :=
  if prev = 0 then games.length - 1 else prev - 1

/-- `handleNext`: `prev === games.length - 1 ? 0 : prev + 1`. -/
def handleNext (games : List Game) (prev : Nat) : Nat :=
  if prev = games.length - 1 then 0 else prev + 1

/-- The success branch of `handleGameClick`'s fetch: spread the previous
selected game, overwriting each team's `players` with the response data. -/
def mergeBoxScore (prev : Game) (data : BoxScoreData) : Game :=
  { prev with
    homeTeam := { prev.homeTeam with players := some data.homeTeam.players }
    awayTeam := { prev.awayTeam with players := some data.awayTeam.players } }

/-- One step of the component: the effect of each handler on the state.

* `listFetchOk gs`: `setGames(data.games); setLoading(false)` — note `error`
  is not cleared.
* `listFetchErr msg`: `setError(msg); setLoading(false)`.
* `clickGame i`: `handleGameClick(games[i])` — sets the selection, opens the
  modal in its loading sub-state, and dispatches a box-score fetch keyed by
  the clicked game's id.
* `boxScoreOk gid d`: the fetch callback `setSelectedGame(prev => ...)`
  merges `d` into whatever game is selected at resolution time (the source
  never compares `gid` against the current selection), then the `finally`
  clears `boxScoreLoading`.
* `boxScoreErr gid`: `catch` only logs; `finally` clears `boxScoreLoading`.
* the remaining events are the carousel / sidebar / dialog `setState` calls. -/
def step (s : AppState) (e : Event) : AppState :=
  match e with
  | .listFetchOk gs => { s with games := gs, loading := false }
  | .listFetchErr msg => { s with error := some msg, loading := false }
  | .clickGame i =>
    match s.games[i]? with
    | none => s
    | some g =>
      { s with
        selectedGame := some g
        showBoxScore := true
        boxScoreLoading := true
        pendingBoxScores := s.pendingBoxScores ++ [g.id] }
  | .boxScoreOk gid d =>
    { s with
      selectedGame := s.selectedGame.map (fun prev => mergeBoxScore prev d)
      boxScoreLoading := false
      pendingBoxScores := s.pendingBoxScores.erase gid }
  | .boxScoreErr gid =>
    { s with
      boxScoreLoading := false
      pendingBoxScores := s.pendingBoxScores.erase gid }
  | .prevClick => { s with activeIndex := handlePrevious s.games s.activeIndex }
  | .nextClick => { s with activeIndex := handleNext s.games s.activeIndex }
  | .setIndex i => { s with activeIndex := i }
  | .setShowBoxScore b => { s with showBoxScore := b }
  | .toggleSidebar => { s with sidebarOpen := !s.sidebarOpen }

/-- Run a trace of events from the initial state. -/
def run (tr : List Event) : AppState := tr.foldl step initState

/-! ## Rendering -/

/-- The top-level view, following the component's early returns: the loading
placeholder, the error display, the "no games" display, or the carousel of
one card per game. -/
inductive View where
  | loadingView (msg : String)
  | errorView (msg : String)
  | noGamesView (msg : String)
  | gamesView (cards : List Game) (activeIndex : Nat)
deriving DecidableEq, Repr

/-- JS truthiness of the `error` state variable (`null` and `""` are falsy). -/
def errorTruthy : Option String → Bool
  | none => false
  | some m => m ≠ ""

/-- The component's top-level render: `if (loading) ...; if (error) ...;
if (games.length === 0) ...;` else the carousel mapping over `games`. -/
def render (s : AppState) : View :=
  if s.loading then .loadingView "Loading games..."
  else if errorTruthy s.error then .errorView (s.error.getD "")
  else if s.games = [] then .noGamesView "No games scheduled for today"
  else .gamesView s.games s.activeIndex

/-- The number of game cards rendered (the carousel maps over `games`). -/
def renderedCardCount (s : AppState) : Nat :=
  match render s with
  | .gamesView cards _ => cards.length
  | _ => 0

/-- One rendered table row of the modal.  `minutes` holds the result of the
`formatMinutes` call (`none` = the call throws, see `formatMinutes`). -/
structure PlayerRow where
  name : String
  position : String
  minutes : Option String
  points : Int
  rebounds : Int
  assists : Int
  steals : Int
  blocks : Int
  fg : String
  threes : String
  ft : String
deriving DecidableEq, Repr

/-- Rendering of one player into a table row. -/
def renderPlayerRow (p : Player) : PlayerRow :=
  { name := p.name
    position := p.position
    minutes := formatMinutes (some p.minutes)
    points := p.points
    rebounds := p.rebounds
    assists := p.assists
    steals := p.steals
    blocks := p.blocks
    fg := p.fg
    threes := p.threes
    ft := p.ft }

/-- The body of one team's stats table: either player rows or the single
"No player data available" placeholder row. -/
inductive TeamTable where
  | noPlayerData
  | playerRows (rows : List PlayerRow)
deriving DecidableEq, Repr

/-- `players && players.length > 0 ? rows : placeholder`. -/
def renderTeamTable (t : Team) : TeamTable :=
  match t.players with
  | some ps => if ps.length > 0 then .playerRows (ps.map renderPlayerRow) else .noPlayerData
  | none => .noPlayerData

/-- The modal dialog: closed when `showBoxScore` is false, the loading
message while `boxScoreLoading`, else the two team tables (away, home);
with no selected game the optional chains are `undefined`, hence falsy, and
both tables show the placeholder. -/
inductive ModalView where
  | closed
  | modalLoading (msg : String)
  | tables (away : TeamTable) (home : TeamTable)
deriving DecidableEq, Repr

/-- Render the player-stats modal from the state. -/
def renderModal (s : AppState) : ModalView :=
  if !s.showBoxScore then .closed
  else if s.boxScoreLoading then .modalLoading "Loading box score..."
  else
    match s.selectedGame with
    | none => .tables .noPlayerData .noPlayerData
    | some g => .tables (renderTeamTable g.awayTeam) (renderTeamTable g.homeTeam)

/-! ## Concrete sample data (for witnesses and counterexamples) -/

/-- A team with no players loaded, as delivered by the `/api/nba` endpoint. -/
def mkTeam (nm : String) (sc : Int) : Team :=
  { name := nm
    logo := nm ++ ".png"
    color := "#111111"
    secondaryColor := "#eeeeee"
    score := sc
    players := none }

/-- Sample game A. -/
def gA : Game :=
  { id := Sum.inl "401a"
    homeTeam := mkTeam "Lakers" 98
    awayTeam := mkTeam "Celtics" 101
    time := "7:00 PM"
    status := "Final" }

/-- Sample game B. -/
def gB : Game :=
  { id := Sum.inl "401b"
    homeTeam := mkTeam "Warriors" 110
    awayTeam := mkTeam "Heat" 104
    time := "9:30 PM"
    status := "Q3 2:14" }

/-- A sample player used in game A's box score. -/
def pA : Player :=
  { name := "Player A1"
    position := "F"
    minutes := "36:45"
    points := 30
    rebounds := 8
    assists := 9
    steals := 1
    blocks := 1
    fg := "11-20"
    threes := "3-7"
    ft := "5-6" }

/-- A sample player used in game B's box score. -/
def pB : Player :=
  { name := "Player B1"
    position := "G"
    minutes := "07:30"
    points := 22
    rebounds := 3
    assists := 11
    steals := 2
    blocks := 0
    fg := "8-15"
    threes := "2-5"
    ft := "4-4" }

/-- Box-score response for game A. -/
def dA : BoxScoreData := { homeTeam := { players := [pA] }, awayTeam := { players := [pA, pB] } }

/-- Box-score response for game B. -/
def dB : BoxScoreData := { homeTeam := { players := [pB] }, awayTeam := { players := [pB, pA] } }

/-! ## Helper lemmas about `splitOnChar` -/

theorem splitOnChar_ne_nil (c : Char) (l : List Char) : splitOnChar c l ≠ [] := by
  cases l with
  | nil => simp [splitOnChar]
  | cons x xs =>
    simp only [splitOnChar]
    cases h : splitOnChar c xs with
    | nil => simp
    | cons y ys =>
      by_cases hx : x = c <;> simp [hx]

theorem splitOnChar_of_not_mem (c : Char) (l : List Char) (h : c ∉ l) :
    splitOnChar c l = [l] := by
  induction l with
  | nil => rfl
  | cons x xs ih =>
    have hx : x ≠ c := fun hxc => h (hxc ▸ List.mem_cons_self x xs)
    have hxs : c ∉ xs := fun hm => h (List.mem_cons_of_mem x hm)
    simp only [splitOnChar, ih hxs]
    simp [hx]

theorem splitOnChar_of_mem (c : Char) (l : List Char) (h : c ∈ l) :
    2 ≤ (splitOnChar c l).length := by
  induction l with
  | nil => cases h
  | cons x xs ih =>
    simp only [splitOnChar]
    cases hs : splitOnChar c xs with
    | nil => exact absurd hs (splitOnChar_ne_nil c xs)
    | cons y ys =>
      by_cases hx : x = c
      · simp [hx]
      · have hm : c ∈ xs := by
          cases List.mem_cons.mp h with
          | inl he => exact absurd he.symm hx
          | inr hm => exact hm
        have h2 := ih hm
        rw [hs] at h2
        simp only [List.length_cons] at h2
        simp only [hx, if_false, List.length_cons]
        omega

/-! ## Claims about the formatter and carousel -/

/-- Claim C3: for every list of N ≥ 1 games and every active index i with
0 ≤ i < N, `handleNext` yields (i+1) mod N and `handlePrevious` yields
(i-1+N) mod N (written `(i + N - 1) % N` in `Nat` arithmetic); for N = 1 and
i = 0 both handlers map the index to itself (the witness instantiates this
case). -/
theorem claim_C3 (games : List Game) (i : Nat)
    (hn : 1 ≤ games.length) (hi : i < games.length) :
    handleNext games i = (i + 1) % games.length ∧
    handlePrevious games i = (i + games.length - 1) % games.length := by
  constructor
  · unfold handleNext
    by_cases h : i = games.length - 1
    · subst h
      rw [if_pos rfl]
      have he : games.length - 1 + 1 = games.length := by omega
      rw [he, Nat.mod_self]
    · rw [if_neg h]
      exact (Nat.mod_eq_of_lt (by omega)).symm
  · unfold handlePrevious
    by_cases h : i = 0
    · subst h
      rw [if_pos rfl, Nat.zero_add]
      exact (Nat.mod_eq_of_lt (by omega)).symm
    · rw [if_neg h]
      have he : i + games.length - 1 = (i - 1) + games.length := by omega
      rw [he, Nat.add_mod_right]
      exact (Nat.mod_eq_of_lt (by omega)).symm

/-- Witness for C3 at the N = 1, i = 0 case: both handlers map 0 to itself. -/
theorem claim_C3_witness :
    handleNext [gA] 0 = (0 + 1) % [gA].length ∧
    handlePrevious [gA] 0 = (0 + [gA].length - 1) % [gA].length :=
  claim_C3 [gA] 0 (by simp) (by simp)

/-- Claim C4: the minutes formatter strips leading zero-padding from the
minutes part and truncates the seconds part to at most two characters, and
formats absent or empty input as "0:00": the four specified evaluations. -/
theorem claim_C4 :
    formatMinutes (some "07:30") = some "7:30" ∧
    formatMinutes (some "") = some "0:00" ∧
    formatMinutes none = some "0:00" ∧
    formatMinutes (some "10:5") = some "10:5" :=
  ⟨by decide, rfl, rfl, by decide⟩

/-- Claim C10: `formatMinutes` is total only on absent/empty input or input
containing a ':' separator: every non-empty string without ':' makes the call
throw (modelled as result `none`, since `secs` is `undefined` and `.slice` is
applied to it), while a ':' in the input guarantees a non-throwing result. -/
theorem claim_C10 (s : String) (hne : s ≠ "") :
    (':' ∉ s.data → formatMinutes (some s) = none) ∧
    (':' ∈ s.data → ∃ r, formatMinutes (some s) = some r) := by
  constructor
  · intro hmem
    simp only [formatMinutes]
    rw [if_neg hne, splitOnChar_of_not_mem ':' s.data hmem]
  · intro hmem
    have h2 := splitOnChar_of_mem ':' s.data hmem
    obtain ⟨a, l1, h1⟩ := List.exists_cons_of_ne_nil (splitOnChar_ne_nil ':' s.data)
    have hl1 : l1 ≠ [] := by
      intro hq
      rw [h1, hq] at h2
      simp at h2
    obtain ⟨b, l2, h3⟩ := List.exists_cons_of_ne_nil hl1
    refine ⟨jsRenderParseInt a ++ ":" ++ String.mk (b.take 2), ?_⟩
    simp only [formatMinutes]
    rw [if_neg hne, h1, h3]

/-- Witness for C10: the non-empty, colon-free input "42" throws, while
"10:5" (contains ':') returns successfully. -/
theorem claim_C10_witness :
    formatMinutes (some "42") = none ∧
    ∃ r, formatMinutes (some "10:5") = some r :=
  ⟨(claim_C10 "42" (by decide)).1 (by decide),
   (claim_C10 "10:5" (by decide)).2 (by decide)⟩

/-! ## Claims about the list fetch and its error handling -/

/-- Claim C1 counterexample: after a failed list fetch, a subsequent
successful fetch does NOT return the view to the normal display — `setError`
is never called with `null`, so the view stays in error display even though
the new games list was stored. -/
theorem claim_C1_counterexample :
    render (run [Event.listFetchErr "Failed to fetch games", Event.listFetchOk [gA]]) =
      View.errorView "Failed to fetch games" ∧
    (run [Event.listFetchErr "Failed to fetch games", Event.listFetchOk [gA]]).games = [gA] := by
  decide

/-- Claim C1 (amended): if a list fetch fails with a non-empty message, the
view switches into error display showing that message; the error state is not
recoverable: a subsequent successful fetch stores the returned games and
leaves the error message in place, so the view remains in error display. -/
theorem claim_C1_amended (s : AppState) (m : String) (gs : List Game) (hm : m ≠ "") :
    render (step s (Event.listFetchErr m)) = View.errorView m ∧
    (step (step s (Event.listFetchErr m)) (Event.listFetchOk gs)).games = gs ∧
    (step (step s (Event.listFetchErr m)) (Event.listFetchOk gs)).error = some m ∧
    render (step (step s (Event.listFetchErr m)) (Event.listFetchOk gs)) = View.errorView m := by
  simp [step, render, errorTruthy, hm]

/-- Witness for C1 (amended) at the message the source actually throws. -/
theorem claim_C1_witness :
    render (step initState (Event.listFetchErr "Failed to fetch games")) =
      View.errorView "Failed to fetch games" ∧
    (step (step initState (Event.listFetchErr "Failed to fetch games"))
        (Event.listFetchOk [gA])).games = [gA] ∧
    (step (step initState (Event.listFetchErr "Failed to fetch games"))
        (Event.listFetchOk [gA])).error = some "Failed to fetch games" ∧
    render (step (step initState (Event.listFetchErr "Failed to fetch games"))
        (Event.listFetchOk [gA])) = View.errorView "Failed to fetch games" :=
  claim_C1_amended initState "Failed to fetch games" [gA] (by decide)

/-! ## Claims about the box-score fetch -/

/-- The race trace refuting C2: game A is clicked (dispatching a fetch keyed
`gA.id`), then game B is clicked; B's response resolves first, then A's stale
response resolves last. -/
def trC2 : List Event :=
  [Event.listFetchOk [gA, gB], Event.clickGame 0, Event.clickGame 1,
   Event.boxScoreOk gB.id dB, Event.boxScoreOk gA.id dA]

/-- Claim C2 counterexample: in the interleaving `trC2` the game that stays
selected is B, every dispatched fetch has resolved (`pendingBoxScores = []`),
yet the player data attached to B is the payload of the fetch keyed by A's
identifier — the stale response overwrote the newly selected game's data. -/
theorem claim_C2_counterexample :
    (run trC2).selectedGame.map Game.id = some gB.id ∧
    (run trC2).selectedGame.map (fun g => g.homeTeam.players) =
      some (some dA.homeTeam.players) ∧
    (run trC2).selectedGame.map (fun g => g.awayTeam.players) =
      some (some dA.awayTeam.players) ∧
    dA.homeTeam.players ≠ dB.homeTeam.players ∧
    gA.id ≠ gB.id ∧
    (run trC2).pendingBoxScores = [] := by
  decide

/-- Claim C2 (amended): the code does not guard on game identity — a
box-score response, whatever id its request was keyed by, is merged into
whichever game is selected at resolution time, so a stale response can
overwrite the newly selected game's data. -/
theorem claim_C2_amended (s : AppState) (gid : GameId) (d : BoxScoreData) :
    (step s (Event.boxScoreOk gid d)).selectedGame =
      s.selectedGame.map (fun g => mergeBoxScore g d) := rfl

/-! ## Claims about the rendered list states -/

/-- Claim C5 counterexample: a successful zero-length fetch arriving after a
failed fetch leaves the view in the error state, not the "no games scheduled"
state, because the error flag is never cleared. -/
theorem claim_C5_counterexample :
    render (run [Event.listFetchErr "Failed to fetch games", Event.listFetchOk []]) =
      View.errorView "Failed to fetch games" ∧
    render (run [Event.listFetchErr "Failed to fetch games", Event.listFetchOk []]) ≠
      View.noGamesView "No games scheduled for today" := by
  decide

/-- Claim C5 (amended): provided the view is not already in the error state
(`error` unset), a successful list fetch renders exactly one card per
returned game, a zero-length response yields the distinct "no games
scheduled" state, and a non-empty response yields the carousel view (so
neither the loading nor the error state). -/
theorem claim_C5_amended (s : AppState) (gs : List Game) (he : s.error = none) :
    renderedCardCount (step s (Event.listFetchOk gs)) = gs.length ∧
    (gs = [] →
      render (step s (Event.listFetchOk gs)) = View.noGamesView "No games scheduled for today") ∧
    (gs ≠ [] →
      render (step s (Event.listFetchOk gs)) = View.gamesView gs s.activeIndex) := by
  by_cases hgs : gs = []
  · subst hgs
    simp [step, render, renderedCardCount, errorTruthy, he]
  · refine ⟨?_, fun h => absurd h hgs, fun _ => ?_⟩ <;>
      simp [step, render, renderedCardCount, errorTruthy, he, hgs]

/-- Witness for C5 (amended) on a two-game response from the initial state. -/
theorem claim_C5_witness :
    renderedCardCount (step initState (Event.listFetchOk [gA, gB])) = [gA, gB].length ∧
    ([gA, gB] = ([] : List Game) →
      render (step initState (Event.listFetchOk [gA, gB])) =
        View.noGamesView "No games scheduled for today") ∧
    ([gA, gB] ≠ ([] : List Game) →
      render (step initState (Event.listFetchOk [gA, gB])) =
        View.gamesView [gA, gB] initState.activeIndex) :=
  claim_C5_amended initState [gA, gB] rfl

/-- Claim C6: a successful box-score fetch merges the returned home/away
player sequences verbatim (no sort) into the currently selected game's team
objects only — the master games list is unchanged — and the selected game's
id, time, status and every other team field are left untouched. -/
theorem claim_C6 (s : AppState) (gid : GameId) (d : BoxScoreData) (g : Game)
    (h : s.selectedGame = some g) :
    (step s (Event.boxScoreOk gid d)).selectedGame = some (mergeBoxScore g d) ∧
    (step s (Event.boxScoreOk gid d)).games = s.games ∧
    (mergeBoxScore g d).homeTeam.players = some d.homeTeam.players ∧
    (mergeBoxScore g d).awayTeam.players = some d.awayTeam.players ∧
    (mergeBoxScore g d).id = g.id ∧
    (mergeBoxScore g d).time = g.time ∧
    (mergeBoxScore g d).status = g.status ∧
    (mergeBoxScore g d).homeTeam.name = g.homeTeam.name ∧
    (mergeBoxScore g d).homeTeam.logo = g.homeTeam.logo ∧
    (mergeBoxScore g d).homeTeam.color = g.homeTeam.color ∧
    (mergeBoxScore g d).homeTeam.secondaryColor = g.homeTeam.secondaryColor ∧
    (mergeBoxScore g d).homeTeam.score = g.homeTeam.score ∧
    (mergeBoxScore g d).awayTeam.name = g.awayTeam.name ∧
    (mergeBoxScore g d).awayTeam.logo = g.awayTeam.logo ∧
    (mergeBoxScore g d).awayTeam.color = g.awayTeam.color ∧
    (mergeBoxScore g d).awayTeam.secondaryColor = g.awayTeam.secondaryColor ∧
    (mergeBoxScore g d).awayTeam.score = g.awayTeam.score := by
  simp [step, mergeBoxScore, h]

/-- A state with game A selected, as after clicking its card. -/
def sC6 : AppState :=
  { initState with
    games := [gA, gB]
    loading := false
    selectedGame := some gA
    showBoxScore := true }

/-- Witness for C6: game A selected, game A's box score arrives. -/
theorem claim_C6_witness :
    (step sC6 (Event.boxScoreOk gA.id dA)).selectedGame = some (mergeBoxScore gA dA) ∧
    (step sC6 (Event.boxScoreOk gA.id dA)).games = sC6.games ∧
    (mergeBoxScore gA dA).homeTeam.players = some dA.homeTeam.players ∧
    (mergeBoxScore gA dA).awayTeam.players = some dA.awayTeam.players ∧
    (mergeBoxScore gA dA).id = gA.id ∧
    (mergeBoxScore gA dA).time = gA.time ∧
    (mergeBoxScore gA dA).status = gA.status ∧
    (mergeBoxScore gA dA).homeTeam.name = gA.homeTeam.name ∧
    (mergeBoxScore gA dA).homeTeam.logo = gA.homeTeam.logo ∧
    (mergeBoxScore gA dA).homeTeam.color = gA.homeTeam.color ∧
    (mergeBoxScore gA dA).homeTeam.secondaryColor = gA.homeTeam.secondaryColor ∧
    (mergeBoxScore gA dA).homeTeam.score = gA.homeTeam.score ∧
    (mergeBoxScore gA dA).awayTeam.name = gA.awayTeam.name ∧
    (mergeBoxScore gA dA).awayTeam.logo = gA.awayTeam.logo ∧
    (mergeBoxScore gA dA).awayTeam.color = gA.awayTeam.color ∧
    (mergeBoxScore gA dA).awayTeam.secondaryColor = gA.awayTeam.secondaryColor ∧
    (mergeBoxScore gA dA).awayTeam.score = gA.awayTeam.score :=
  claim_C6 sC6 gA.id dA gA rfl

/-- Claim C7: after clicking a game (whose teams have no player data yet) and
a failed box-score fetch, the modal remains open showing the two "no player
data" placeholder tables, the box-score loading sub-state is cleared, and no
view-level error is raised: the error flag, the games list and the whole
outer view are exactly as before the click. -/
theorem claim_C7 (s : AppState) (i : Nat) (g : Game)
    (hg : s.games[i]? = some g)
    (hh : g.homeTeam.players = none) (ha : g.awayTeam.players = none) :
    (step (step s (Event.clickGame i)) (Event.boxScoreErr g.id)).showBoxScore = true ∧
    (step (step s (Event.clickGame i)) (Event.boxScoreErr g.id)).boxScoreLoading = false ∧
    (step (step s (Event.clickGame i)) (Event.boxScoreErr g.id)).selectedGame = some g ∧
    (step (step s (Event.clickGame i)) (Event.boxScoreErr g.id)).error = s.error ∧
    (step (step s (Event.clickGame i)) (Event.boxScoreErr g.id)).games = s.games ∧
    render (step (step s (Event.clickGame i)) (Event.boxScoreErr g.id)) = render s ∧
    renderModal (step (step s (Event.clickGame i)) (Event.boxScoreErr g.id)) =
      ModalView.tables TeamTable.noPlayerData TeamTable.noPlayerData := by
  simp [step, hg, render, renderModal, renderTeamTable, hh, ha]

/-- A state showing two fetched games, neither selected yet. -/
def sC7 : AppState := { initState with games := [gA, gB], loading := false }

/-- Witness for C7: clicking game A's card, then its box-score fetch fails. -/
theorem claim_C7_witness :
    (step (step sC7 (Event.clickGame 0)) (Event.boxScoreErr gA.id)).showBoxScore = true ∧
    (step (step sC7 (Event.clickGame 0)) (Event.boxScoreErr gA.id)).boxScoreLoading = false ∧
    (step (step sC7 (Event.clickGame 0)) (Event.boxScoreErr gA.id)).selectedGame = some gA ∧
    (step (step sC7 (Event.clickGame 0)) (Event.boxScoreErr gA.id)).error = sC7.error ∧
    (step (step sC7 (Event.clickGame 0)) (Event.boxScoreErr gA.id)).games = sC7.games ∧
    render (step (step sC7 (Event.clickGame 0)) (Event.boxScoreErr gA.id)) = render sC7 ∧
    renderModal (step (step sC7 (Event.clickGame 0)) (Event.boxScoreErr gA.id)) =
      ModalView.tables TeamTable.noPlayerData TeamTable.noPlayerData :=
  claim_C7 sC7 0 gA rfl rfl rfl

/-- Recognizer for the two resolutions of the periodic game-list refresh. -/
def isListRefresh : Event → Bool
  | .listFetchOk _ => true
  | .listFetchErr _ => true
  | _ => false

/-- Recognizer for a successful box-score resolution. -/
def isBoxScoreOk : Event → Bool
  | .boxScoreOk _ _ => true
  | _ => false

/-- Claim C9: a game-list refresh (success or failure) never modifies the
selected game or the modal flags; moreover every event other than a
successful box-score resolution either leaves the selection untouched or (a
click) replaces it wholesale by a game of the master list — so player
sequences are attached to the selection only by the box-score fetch. -/
theorem claim_C9 (s : AppState) (e : Event) :
    (isListRefresh e = true →
      (step s e).selectedGame = s.selectedGame ∧
      (step s e).showBoxScore = s.showBoxScore ∧
      (step s e).boxScoreLoading = s.boxScoreLoading) ∧
    (isBoxScoreOk e = false →
      (step s e).selectedGame = s.selectedGame ∨
      ∃ i g, e = Event.clickGame i ∧ s.games[i]? = some g ∧
        (step s e).selectedGame = some g) := by
  constructor
  · intro hr
    cases e <;> simp_all [isListRefresh, step]
  · intro hb
    cases e with
    | listFetchOk gs => exact Or.inl rfl
    | listFetchErr m => exact Or.inl rfl
    | clickGame i =>
      cases hgi : s.games[i]? with
      | none => exact Or.inl (by simp [step, hgi])
      | some g => exact Or.inr ⟨i, g, rfl, hgi, by simp [step, hgi]⟩
    | boxScoreOk gid d => simp [isBoxScoreOk] at hb
    | boxScoreErr gid => exact Or.inl rfl
    | prevClick => exact Or.inl rfl
    | nextClick => exact Or.inl rfl
    | setIndex i => exact Or.inl rfl
    | setShowBoxScore b => exact Or.inl rfl
    | toggleSidebar => exact Or.inl rfl

/-- A state with game A selected and its players loaded, modal open. -/
def sC9 : AppState :=
  { initState with
    games := [gA, gB]
    loading := false
    selectedGame := some (mergeBoxScore gA dA)
    showBoxScore := true }

/-- Witness for C9: a refresh delivering a new list leaves the selected game
(with its loaded players) and the modal flags untouched. -/
theorem claim_C9_witness :
    ((step sC9 (Event.listFetchOk [gB])).selectedGame = sC9.selectedGame ∧
     (step sC9 (Event.listFetchOk [gB])).showBoxScore = sC9.showBoxScore ∧
     (step sC9 (Event.listFetchOk [gB])).boxScoreLoading = sC9.boxScoreLoading) ∧
    ((step sC9 (Event.listFetchOk [gB])).selectedGame = sC9.selectedGame ∨
     ∃ i g, Event.listFetchOk [gB] = Event.clickGame i ∧ sC9.games[i]? = some g ∧
       (step sC9 (Event.listFetchOk [gB])).selectedGame = some g) :=
  ⟨(claim_C9 sC9 (Event.listFetchOk [gB])).1 rfl,
   (claim_C9 sC9 (Event.listFetchOk [gB])).2 rfl⟩

/-! ## Claim C8: players absent until a box score loads -/

/-- Every game of a list has both `players` fields absent (the shape the
`/api/nba` endpoint delivers: score and metadata, no players). -/
def gamesPlayersAbsent (gs : List Game) : Prop :=
  ∀ g ∈ gs, g.homeTeam.players = none ∧ g.awayTeam.players = none

instance (gs : List Game) : Decidable (gamesPlayersAbsent gs) :=
  List.decidableBAll _ gs

/-- An event's payload is clean when a list-fetch success delivers only games
without players (all other events carry no game list). -/
def eventPayloadClean : Event → Prop
  | .listFetchOk gs => gamesPlayersAbsent gs
  | _ => True

instance (e : Event) : Decidable (eventPayloadClean e) := by
  cases e <;> (unfold eventPayloadClean; infer_instance)

/-- The selected game, when present, has both `players` fields absent. -/
def selectedPlayersAbsent : Option Game → Prop
  | none => True
  | some g => g.homeTeam.players = none ∧ g.awayTeam.players = none

instance (og : Option Game) : Decidable (selectedPlayersAbsent og) := by
  cases og <;> (unfold selectedPlayersAbsent; infer_instance)

/-- The ids of the box-score fetches that completed successfully in a trace. -/
def completedBoxScoreIds (tr : List Event) : List GameId :=
  tr.filterMap fun e =>
    match e with
    | .boxScoreOk gid _ => some gid
    | _ => none

theorem step_games_absent (s : AppState) (e : Event)
    (hs : gamesPlayersAbsent s.games) (he : eventPayloadClean e) :
    gamesPlayersAbsent (step s e).games := by
  cases e with
  | listFetchOk gs => exact he
  | clickGame i =>
    cases hgi : s.games[i]? with
    | none => simpa [step, hgi] using hs
    | some g => simpa [step, hgi] using hs
  | _ => exact hs

theorem step_selected_absent (s : AppState) (e : Event)
    (hs : gamesPlayersAbsent s.games) (hsel : selectedPlayersAbsent s.selectedGame)
    (hb : isBoxScoreOk e = false) :
    selectedPlayersAbsent (step s e).selectedGame := by
  cases e with
  | listFetchOk gs => exact hsel
  | listFetchErr m => exact hsel
  | clickGame i =>
    cases hgi : s.games[i]? with
    | none => simpa [step, hgi] using hsel
    | some g =>
      have hmem : g ∈ s.games := by
        obtain ⟨hi, rfl⟩ := List.getElem?_eq_some.mp hgi
        exact List.getElem_mem hi
      simpa [step, hgi, selectedPlayersAbsent] using hs g hmem
  | boxScoreOk gid d => simp [isBoxScoreOk] at hb
  | boxScoreErr gid => exact hsel
  | prevClick => exact hsel
  | nextClick => exact hsel
  | setIndex i => exact hsel
  | setShowBoxScore b => exact hsel
  | toggleSidebar => exact hsel

theorem foldl_games_absent (tr : List Event) (s : AppState)
    (hs : gamesPlayersAbsent s.games) (hc : ∀ e ∈ tr, eventPayloadClean e) :
    gamesPlayersAbsent (tr.foldl step s).games := by
  induction tr generalizing s with
  | nil => exact hs
  | cons e rest ih =>
    exact ih (step s e)
      (step_games_absent s e hs (hc e (List.mem_cons_self e rest)))
      (fun x hx => hc x (List.mem_cons_of_mem e hx))

theorem foldl_selected_absent (tr : List Event) (s : AppState)
    (hs : gamesPlayersAbsent s.games) (hsel : selectedPlayersAbsent s.selectedGame)
    (hc : ∀ e ∈ tr, eventPayloadClean e) (hb : ∀ e ∈ tr, isBoxScoreOk e = false) :
    selectedPlayersAbsent ((tr.foldl step s).selectedGame) := by
  induction tr generalizing s with
  | nil => exact hsel
  | cons e rest ih =>
    exact ih (step s e)
      (step_games_absent s e hs (hc e (List.mem_cons_self e rest)))
      (step_selected_absent s e hs hsel (hb e (List.mem_cons_self e rest)))
      (fun x hx => hc x (List.mem_cons_of_mem e hx))
      (fun x hx => hb x (List.mem_cons_of_mem e hx))

/-- The race trace refuting C8 as stated: game A is clicked, then game B; the
fetch keyed by A's id completes while B is selected. -/
def trC8 : List Event :=
  [Event.listFetchOk [gA, gB], Event.clickGame 0, Event.clickGame 1,
   Event.boxScoreOk gA.id dA]

/-- Claim C8 counterexample: in the trace `trC8` (all list payloads clean,
i.e. without players), the selected game is B and carries loaded player
sequences, yet the only successfully completed box-score fetch was keyed by
A's identifier — so a game's players can become present without a box-score
fetch *for that game* completing successfully. -/
theorem claim_C8_counterexample :
    (∀ e ∈ trC8, eventPayloadClean e) ∧
    (run trC8).selectedGame.map Game.id = some gB.id ∧
    (run trC8).selectedGame.map (fun g => g.homeTeam.players) =
      some (some dA.homeTeam.players) ∧
    completedBoxScoreIds trC8 = [gA.id] ∧
    gA.id ≠ gB.id := by
  decide

/-- Claim C8 (amended): when every list fetch delivers games without players,
every game of the master list always has `players` absent, and the selected
game's `players` stay absent until *some* box-score fetch completes
successfully (due to the unguarded merge, possibly one keyed by a previously
selected game); and a modal table for a team whose `players` is absent or
empty renders the "No player data available" placeholder, not an empty
table. -/
theorem claim_C8_amended (tr : List Event) (hc : ∀ e ∈ tr, eventPayloadClean e) :
    gamesPlayersAbsent (run tr).games ∧
    ((∀ e ∈ tr, isBoxScoreOk e = false) →
      selectedPlayersAbsent (run tr).selectedGame) ∧
    (∀ t : Team, t.players = none ∨ t.players = some [] →
      renderTeamTable t = TeamTable.noPlayerData) := by
  refine ⟨?_, ?_, ?_⟩
  · exact foldl_games_absent tr initState (by intro g hg; cases hg) hc
  · intro hb
    exact foldl_selected_absent tr initState (by intro g hg; cases hg) trivial hc hb
  · intro t ht
    cases ht with
    | inl h => simp [renderTeamTable, h]
    | inr h => simp [renderTeamTable, h]

/-- Witness for C8 (amended): a trace that fetches the list, clicks game A
and suffers a failed box-score fetch — players stay absent everywhere. -/
theorem claim_C8_witness :
    gamesPlayersAbsent
      (run [Event.listFetchOk [gA, gB], Event.clickGame 0, Event.boxScoreErr gA.id]).games ∧
    ((∀ e ∈ [Event.listFetchOk [gA, gB], Event.clickGame 0, Event.boxScoreErr gA.id],
        isBoxScoreOk e = false) →
      selectedPlayersAbsent
        (run [Event.listFetchOk [gA, gB], Event.clickGame 0, Event.boxScoreErr gA.id]).selectedGame) ∧
    (∀ t : Team, t.players = none ∨ t.players = some [] →
      renderTeamTable t = TeamTable.noPlayerData) :=
  claim_C8_amended
    [Event.listFetchOk [gA, gB], Event.clickGame 0, Event.boxScoreErr gA.id]
    (by decide)
